import Mathlib

/-!
A shallow embedding of the event-handling core of the jwm window manager
(src/event.c, with the type declarations of src/hint.h), together with
theorems checking the natural-language specification of that core.

Conventions of the embedding:
* window identifiers are `Nat`; screen coordinates are `Int`; sizes are `Nat`;
* the C bit masks `ClientState.status` and `ClientState.border` are structures
  of named `Bool` fields, one per flag;
* calls into external collaborators (client-state transitions, drawing,
  taskbar/pager refresh, the client's `controller` callback) are recorded as
  an explicit trace of `WMAction` values in the order the source makes the calls;
* results of external queries that the handlers branch on (collaborator
  "did you handle it?" answers, the resolved border action zone, the return
  value of `MoveClient`) are inputs of the embedded functions.
-/

/-- Modelled from the spec (section 3): the `status` bit mask of `ClientState`
(the flag constants live in client.h, which is not among the scoped sources)
as a structure of independent boolean flags. -/
structure StatusFlags where
  mapped : Bool
  minimized : Bool
  withdrawn : Bool
  shaded : Bool
  sticky : Bool
  maximizedHorz : Bool
  maximizedVert : Bool
  active : Bool
  noList : Bool
  useShape : Bool
  wmDialog : Bool
deriving DecidableEq, Repr

/-- Modelled from the spec (section 3): the `border` bit mask of `ClientState`
(BORDER_OUTLINE and BORDER_TITLE of client.h) as named boolean flags. -/
structure BorderFlags where
  outline : Bool
  title : Bool
deriving DecidableEq, Repr

/-- The `ClientState` record of src/hint.h, with the two bit masks replaced by
their flag structures. -/
structure ClientState where
  status : StatusFlags
  border : BorderFlags
  layer : Nat
  defaultLayer : Nat
  desktop : Nat
  opacity : Nat
deriving DecidableEq, Repr

/-- Modelled from the spec (section 3): the fields of `ClientNode` (client.h is
not among the scoped sources) that src/event.c reads or writes.  `window` is
the content window id, `parent` the decoration window id; `controller` records
whether the optional controller callback is registered. -/
structure ClientNode where
  window : Nat
  parent : Nat
  x : Int
  y : Int
  width : Nat
  height : Nat
  state : ClientState
  cmap : Nat
  controller : Bool
deriving DecidableEq, Repr

/-- Modelled from the spec (sections 2 and 4.2): the client registry is the
list of managed clients, and `FindClientByWindow` resolves a window id to the
managed client holding it as either its content id or its decoration id
(client.c is not among the scoped sources). -/
def FindClientByWindow (reg : List ClientNode) (w : Nat) : Option ClientNode :=
  reg.find? fun np => np.window == w || np.parent == w

/-- Modelled from the spec (section 4.2): `Remove(clientRef)` deregisters both
of the client's ids, which the list embedding does by dropping its record. -/
def RemoveClient (reg : List ClientNode) (np : ClientNode) : List ClientNode :=
  reg.filter fun c => c.window != np.window

/-- In-place mutation of the client found at content id `w`, as the C handlers
perform through the `np` pointer. -/
def updateClient (reg : List ClientNode) (w : Nat) (np' : ClientNode) : List ClientNode :=
  reg.map fun c => if c.window == w then np' else c

/-- The CW* bits of the `value_mask` of a ConfigureRequest, as booleans. -/
structure ChangeMask where
  cwX : Bool
  cwY : Bool
  cwWidth : Bool
  cwHeight : Bool
  cwBorderWidth : Bool
  cwSibling : Bool
  cwStackMode : Bool
deriving DecidableEq, Repr

/-- The `XWindowChanges` record filled in by HandleConfigureRequest. -/
structure WindowChanges where
  x : Int
  y : Int
  width : Nat
  height : Nat
  borderW : Nat
  sibling : Nat
  stackMode : Nat
deriving DecidableEq, Repr

/-- One `JXConfigureWindow(display, target, mask, wc)` call. -/
structure ConfCall where
  target : Nat
  mask : ChangeMask
  wc : WindowChanges
deriving DecidableEq, Repr

/-- The side-effecting calls the embedded handlers make into external
collaborators, recorded in call order. -/
inductive WMAction where
  | controllerCall (w : Nat) (ending : Nat)
  | configure (c : ConfCall)
  | removeClient (w : Nat)
  | clearMapped (w : Nat)
  | unmapWindow (w : Nat)
  | updateColormap (w : Nat)
  | drawBorder (w : Nat)
  | updateTaskBar
  | updatePager
  | readWMName (w : Nat)
  | readWMNormalHints (w : Nat)
  | readWMColormaps (w : Nat)
  | loadIcon (w : Nat)
  | restart
  | exitWM
  | resizeClient (w : Nat)
  | moveClient (w : Nat)
  | shadeClient (w : Nat)
  | unshadeClient (w : Nat)
  | deleteClient (w : Nat)
  | maximizeClient (w : Nat)
  | minimizeClient (w : Nat)
  | setSticky (w : Nat) (value : Bool)
  | clearStickyFlag (w : Nat)
  | setDesktop (w : Nat) (d : Nat)
  | runKeyCommand
  | changeDesktop (d : Nat)
  | nextDesktop
  | focusNext
  | showRootMenu (x y : Int)
  | showWindowMenu (w : Nat) (x y : Int)
  | moveClientKeyboard (w : Nat)
  | resizeClientKeyboard (w : Nat)
deriving DecidableEq, Repr

/-- One iteration of the dispatch loop of `WaitForEvent` (src/event.c lines
61-144), abstracted over what the loop observes: whether the typed-handler
switch classified the event as handled, the answers of the four collaborator
layers, and the value of the global `shouldExit` flag when the loop condition
is checked. -/
structure Iteration where
  coreHandled : Bool
  trayHandled : Bool
  dialogHandled : Bool
  swallowHandled : Bool
  popupHandled : Bool
  shouldExit : Bool
deriving DecidableEq, Repr

/-- The layered handling of one event, as src/event.c lines 132-142 compute it:
the tray, dialog and swallow collaborators are consulted in turn only while
the event is still unhandled, and the popup result is OR-ed in at the end. -/
def layeredHandled (it : Iteration) : Bool :=
  let h0 := it.coreHandled
  let h1 := if !h0 then it.trayHandled else h0
  let h2 := if !h1 then it.dialogHandled else h1
  let h3 := if !h2 then it.swallowHandled else h2
  h3 || it.popupHandled

/-- The `do ... while(handled && !shouldExit)` loop of `WaitForEvent`
(src/event.c lines 61-144), run over a list of iteration observations:
`some n` means the loop body ran `n` times and then returned, `none` that the
loop was still running when the supplied observations were exhausted. -/
def WaitForEvent : List Iteration → Option Nat
  | [] => none
  | it :: rest =>
    if layeredHandled it && !it.shouldExit then
      (WaitForEvent rest).map (· + 1)
    else
      some 1

/-- The layered short-circuit consultation equals the disjunction of the five
layers' answers: an event is unhandled exactly when every layer declined it. -/
theorem layeredHandled_eq_or (it : Iteration) :
    layeredHandled it =
      (it.coreHandled || it.trayHandled || it.dialogHandled ||
        it.swallowHandled || it.popupHandled) := by
  unfold layeredHandled
  cases it.coreHandled <;> cases it.trayHandled <;> cases it.dialogHandled <;>
    cases it.swallowHandled <;> cases it.popupHandled <;> rfl

/-- A dispatch-loop iteration whose event no layer handles, observed while the
shutdown flag is still false. -/
def unhandledIdleIteration : Iteration :=
  ⟨false, false, false, false, false, false⟩

/-- Claim C1, counterexample: an event that remains unhandled by the core
switch and by all four collaborator layers, while the global shutdown flag is
false, nevertheless terminates the dispatch loop immediately — the loop does
not keep running as the claim asserts. -/
theorem C1_counterexample :
    layeredHandled unhandledIdleIteration = false ∧
    unhandledIdleIteration.shouldExit = false ∧
    WaitForEvent [unhandledIdleIteration] = some 1 := by
  decide

/-- Claim C1, amended: `WaitForEvent` returns exactly at the first iteration
whose event comes back unhandled by every layer or at which the shutdown flag
is observed true; in particular an event unhandled by all layers terminates
the loop even while the shutdown flag is false. -/
theorem C1_amended (its : List Iteration) (n : Nat) :
    WaitForEvent its = some n ↔
      ∃ pre it post, its = pre ++ it :: post ∧ pre.length + 1 = n ∧
        (∀ j ∈ pre, layeredHandled j = true ∧ j.shouldExit = false) ∧
        (layeredHandled it = false ∨ it.shouldExit = true) := by
  induction its generalizing n with
  | nil =>
    constructor
    · intro h
      simp [WaitForEvent] at h
    · rintro ⟨pre, it, post, habs, -, -, -⟩
      exact absurd habs (by simp)
  | cons hd rest ih =>
    by_cases hc : layeredHandled hd = true ∧ hd.shouldExit = false
    · have hcond : (layeredHandled hd && !hd.shouldExit) = true := by
        simp [hc.1, hc.2]
      constructor
      · intro h
        simp only [WaitForEvent, hcond, if_true] at h
        rcases Option.map_eq_some'.mp h with ⟨m, hm, hmn⟩
        rcases (ih m).mp hm with ⟨pre, it, post, hsplit, hlen, hpre, hstop⟩
        have hn : m + 1 = n := hmn
        refine ⟨hd :: pre, it, post, by simp [hsplit],
          by simp only [List.length_cons]; omega, ?_, hstop⟩
        intro j hj
        rcases List.mem_cons.mp hj with rfl | hj'
        · exact hc
        · exact hpre j hj'
      · rintro ⟨pre, it, post, hsplit, hlen, hpre, hstop⟩
        cases pre with
        | nil =>
          simp only [List.nil_append, List.cons.injEq] at hsplit
          rcases hsplit with ⟨rfl, rfl⟩
          rcases hstop with h1 | h2
          · exact absurd hc.1 (by simp [h1])
          · exact absurd hc.2 (by simp [h2])
        | cons p ps =>
          simp only [List.cons_append, List.cons.injEq] at hsplit
          rcases hsplit with ⟨rfl, hrest⟩
          have hm : WaitForEvent rest = some (ps.length + 1) := by
            refine (ih (ps.length + 1)).mpr ⟨ps, it, post, hrest, rfl, ?_, hstop⟩
            intro j hj
            exact hpre j (List.mem_cons_of_mem _ hj)
          have hrun : WaitForEvent (hd :: rest) = some (ps.length + 1 + 1) := by
            simp [WaitForEvent, hcond, hm]
          rw [hrun]
          simp only [List.length_cons] at hlen
          exact congrArg some (by omega)
    · have hcond : (layeredHandled hd && !hd.shouldExit) = false := by
        cases h1 : layeredHandled hd <;> cases h2 : hd.shouldExit <;>
          simp_all
      have hstop0 : layeredHandled hd = false ∨ hd.shouldExit = true := by
        cases h1 : layeredHandled hd <;> cases h2 : hd.shouldExit <;>
          simp_all
      constructor
      · intro h
        simp only [WaitForEvent, hcond, Bool.false_eq_true, if_false,
          Option.some.injEq] at h
        exact ⟨[], hd, rest, rfl, by simpa using h, by simp, hstop0⟩
      · rintro ⟨pre, it, post, hsplit, hlen, hpre, hstop⟩
        cases pre with
        | nil =>
          simp only [List.length_nil] at hlen
          have hn : n = 1 := by omega
          subst hn
          simp [WaitForEvent, hcond]
        | cons p ps =>
          simp only [List.cons_append, List.cons.injEq] at hsplit
          have hp := hpre p (List.mem_cons_self p ps)
          rcases hsplit with ⟨rfl, -⟩
          exact absurd hp hc

/-- A handled iteration at which shutdown has been requested. -/
def shutdownIteration : Iteration :=
  ⟨true, false, false, false, false, true⟩

/-- Claim C1, witness for the amended theorem: a handled event observed with
the shutdown flag set makes the loop return after that iteration. -/
theorem C1_amended_witness : WaitForEvent [shutdownIteration] = some 1 :=
  (C1_amended [shutdownIteration] 1).mpr
    ⟨[], shutdownIteration, [], rfl, rfl, by simp, Or.inr rfl⟩

/-- The fields of an `XConfigureRequestEvent` that HandleConfigureRequest
reads, with the `value_mask` expanded into `ChangeMask`. -/
structure XConfigureRequestEvent where
  window : Nat
  mask : ChangeMask
  x : Int
  y : Int
  width : Nat
  height : Nat
  borderW : Nat
  above : Nat
  detail : Nat
deriving DecidableEq, Repr

/-- The `Above` stack-mode constant of Xlib. -/
def stackAbove : Nat := 0

/-- The field-update block of HandleConfigureRequest (src/event.c lines
342-358): each geometry field of the client record is overwritten only when
its CW bit is set and the requested value differs, and `changed` records
whether any field was touched. -/
def applyRequestFields (np : ClientNode) (e : XConfigureRequestEvent) :
    ClientNode × Bool :=
  let p1 := if e.mask.cwWidth && e.width != np.width then
      ({ np with width := e.width }, true)
    else
      (np, false)
  let p2 := if e.mask.cwHeight && e.height != p1.1.height then
      ({ p1.1 with height := e.height }, true)
    else
      p1
  let p3 := if e.mask.cwX && e.x != p2.1.x then
      ({ p2.1 with x := e.x }, true)
    else
      p2
  if e.mask.cwY && e.y != p3.1.y then
    ({ p3.1 with y := e.y }, true)
  else
    p3

/-- The border insets (north, south, east, west) of src/event.c lines 364-378:
a client with an outline pays `borderWidth` on three sides and either
`titleSize` or `borderWidth` on the north side; a client without an outline
has no insets. -/
def borderInsets (borderWidth titleSize : Nat) (b : BorderFlags) :
    Nat × Nat × Nat × Nat :=
  if b.outline then
    (if b.title then titleSize else borderWidth, borderWidth, borderWidth,
      borderWidth)
  else
    (0, 0, 0, 0)

/-- `HandleConfigureRequest` (src/event.c lines 329-407).  For a managed
client whose content id equals the event window the handler notifies the
controller, folds the masked field changes into the client record, and — when
anything changed — issues two `JXConfigureWindow` calls, first for the
decoration window at the content size plus insets, then for the content
window at the undecorated size; any other window gets the request passed
through verbatim. -/
def HandleConfigureRequest (borderWidth titleSize : Nat)
    (reg : List ClientNode) (e : XConfigureRequestEvent) :
    List ClientNode × List WMAction :=
  match FindClientByWindow reg e.window with
  | some np =>
    if np.window = e.window then
      let ctl : List WMAction :=
        if np.controller then [WMAction.controllerCall np.window 0] else []
      let pr := applyRequestFields np e
      let np1 := pr.1
      if pr.2 = false then
        (updateClient reg np.window np1, ctl)
      else
        let ins := borderInsets borderWidth titleSize np1.state.border
        let north := ins.1
        let south := ins.2.1
        let east := ins.2.2.1
        let west := ins.2.2.2
        let wc1 : WindowChanges :=
          ⟨np1.x, np1.y, np1.width + east + west, np1.height + north + south,
            0, np1.parent, stackAbove⟩
        let wc2 : WindowChanges :=
          ⟨west, north, np1.width, np1.height, 0, np1.parent, stackAbove⟩
        (updateClient reg np.window np1,
          ctl ++ [WMAction.configure ⟨np1.parent, e.mask, wc1⟩,
            WMAction.configure ⟨np1.window, e.mask, wc2⟩])
    else
      (reg, [WMAction.configure ⟨e.window, e.mask,
        ⟨e.x, e.y, e.width, e.height, e.borderW, e.above, e.detail⟩⟩])
  | none =>
    (reg, [WMAction.configure ⟨e.window, e.mask,
      ⟨e.x, e.y, e.width, e.height, e.borderW, e.above, e.detail⟩⟩])

/-- The geometry of one X window as the server tracks it. -/
structure Geometry where
  x : Int
  y : Int
  width : Nat
  height : Nat
deriving DecidableEq, Repr

/-- The two server-side windows of one client: the decoration (frame) window
and the content window. -/
structure XState where
  frame : Geometry
  content : Geometry
deriving DecidableEq, Repr

/-- The X server's application of one masked configure call: only the fields
whose CW bit is set in the mask are overwritten. -/
def applyChanges (g : Geometry) (m : ChangeMask) (wc : WindowChanges) :
    Geometry :=
  { x := if m.cwX then wc.x else g.x,
    y := if m.cwY then wc.y else g.y,
    width := if m.cwWidth then wc.width else g.width,
    height := if m.cwHeight then wc.height else g.height }

/-- Routing of one configure call to the window it targets. -/
def applyCall (frameId contentId : Nat) (s : XState) (c : ConfCall) : XState :=
  if c.target = frameId then
    { s with frame := applyChanges s.frame c.mask c.wc }
  else if c.target = contentId then
    { s with content := applyChanges s.content c.mask c.wc }
  else
    s

/-- The sequence of server states reached after each configure call in turn. -/
def statesAfter (frameId contentId : Nat) (s : XState) :
    List ConfCall → List XState
  | [] => []
  | c :: rest =>
    let s1 := applyCall frameId contentId s c
    s1 :: statesAfter frameId contentId s1 rest

/-- The content window fits inside its decoration window. -/
def ContentWithin (s : XState) : Prop :=
  s.content.width ≤ s.frame.width ∧ s.content.height ≤ s.frame.height

instance (s : XState) : Decidable (ContentWithin s) := by
  unfold ContentWithin
  infer_instance

/-- The configure calls among a handler's recorded actions, in order. -/
def confCalls : List WMAction → List ConfCall
  | [] => []
  | WMAction.configure c :: rest => c :: confCalls rest
  | _ :: rest => confCalls rest

/-- The sequential masked field updates of src/event.c lines 342-358 amount to
four independent conditional overwrites, and `changed` is their disjunction. -/
theorem applyRequestFields_eq (np : ClientNode) (e : XConfigureRequestEvent) :
    applyRequestFields np e =
      ({ np with
          width := if e.mask.cwWidth && e.width != np.width then e.width
            else np.width,
          height := if e.mask.cwHeight && e.height != np.height then e.height
            else np.height,
          x := if e.mask.cwX && e.x != np.x then e.x else np.x,
          y := if e.mask.cwY && e.y != np.y then e.y else np.y },
        ((e.mask.cwWidth && e.width != np.width) ||
          (e.mask.cwHeight && e.height != np.height) ||
          (e.mask.cwX && e.x != np.x) ||
          (e.mask.cwY && e.y != np.y))) := by
  cases h1 : (e.mask.cwWidth && e.width != np.width) <;>
    cases h2 : (e.mask.cwHeight && e.height != np.height) <;>
      cases h3 : (e.mask.cwX && e.x != np.x) <;>
        cases h4 : (e.mask.cwY && e.y != np.y) <;>
          simp [applyRequestFields, h1, h2, h3, h4]

/-- Configure calls recorded after a controller notification are the calls of
the rest of the trace. -/
theorem confCalls_controller_append (w a : Nat) (l : List WMAction) :
    confCalls (WMAction.controllerCall w a :: l) = confCalls l := by
  simp [confCalls]

/-- A managed client used to exercise the shrink path of
HandleConfigureRequest: outlined and titled, content 100 by 100. -/
def shrinkClient : ClientNode :=
  ⟨1, 2, 0, 0, 100, 100,
    ⟨⟨true, false, false, false, false, false, false, false, false, false,
        false⟩,
      ⟨true, true⟩, 2, 2, 0, 0⟩, 0, false⟩

/-- A configure request shrinking only the width of window 1 to 50. -/
def shrinkRequest : XConfigureRequestEvent :=
  ⟨1, ⟨false, false, true, false, false, false, false⟩, 0, 0, 50, 100, 0, 0, 0⟩

/-- Server geometry consistent with `shrinkClient` under borderWidth 4 and
titleSize 20: frame 108 by 124, content 100 by 100. -/
def shrinkStart : XState := ⟨⟨0, 0, 108, 124⟩, ⟨4, 20, 100, 100⟩⟩

/-- Claim C2, counterexample: on a shrinking configure request the handler
still resizes the decoration window first, so after that first step the
content window (width 100) is larger than its frame (width 58) — the
content-within-frame invariant does not hold after every individual step, and
the content is not resized before the frame on shrink. -/
theorem C2_counterexample :
    ContentWithin shrinkStart ∧
    statesAfter 2 1 shrinkStart
        (confCalls
          (HandleConfigureRequest 4 20 [shrinkClient] shrinkRequest).2) =
      [⟨⟨0, 0, 58, 124⟩, ⟨4, 20, 100, 100⟩⟩,
        ⟨⟨0, 0, 58, 124⟩, ⟨4, 20, 50, 100⟩⟩] ∧
    ¬ ContentWithin ⟨⟨0, 0, 58, 124⟩, ⟨4, 20, 100, 100⟩⟩ := by
  decide

/-- A configure call aimed at the decoration window updates the frame
geometry. -/
theorem applyCall_to_frame (f c : Nat) (s : XState) (cc : ConfCall)
    (h : cc.target = f) :
    applyCall f c s cc =
      { s with frame := applyChanges s.frame cc.mask cc.wc } := by
  simp [applyCall, h]

/-- A configure call aimed at the content window updates the content
geometry. -/
theorem applyCall_to_content (f c : Nat) (s : XState) (cc : ConfCall)
    (h1 : cc.target ≠ f) (h2 : cc.target = c) :
    applyCall f c s cc =
      { s with content := applyChanges s.content cc.mask cc.wc } := by
  have h3 : ¬(c = f) := fun hcf => h1 (h2.trans hcf)
  simp [applyCall, h1, h2, h3]

/-- The width after a masked configure call. -/
theorem applyChanges_width (g : Geometry) (m : ChangeMask)
    (wc : WindowChanges) :
    (applyChanges g m wc).width = if m.cwWidth then wc.width else g.width :=
  rfl

/-- The height after a masked configure call. -/
theorem applyChanges_height (g : Geometry) (m : ChangeMask)
    (wc : WindowChanges) :
    (applyChanges g m wc).height = if m.cwHeight then wc.height else g.height :=
  rfl

/-- Claim C2, amended: for a configure request on a managed client whose
content id equals the event window, the reconfiguration is a two-step
sequence that always resizes the decoration window first and the content
window second (on shrink as well as on enlargement); when the request does
not shrink either dimension below the current content size, the
content-within-frame invariant holds after every individual step (on a
shrink it can fail between the two steps, see the counterexample). -/
theorem C2_amended (borderWidth titleSize : Nat) (reg : List ClientNode)
    (e : XConfigureRequestEvent) (np : ClientNode) (s0 : XState)
    (h1 : FindClientByWindow reg e.window = some np)
    (h2 : np.window = e.window)
    (h3 : np.parent ≠ np.window)
    (h4 : s0.content.width = np.width)
    (h5 : s0.content.height = np.height)
    (h6 : ContentWithin s0)
    (h7 : e.mask.cwWidth = true → np.width ≤ e.width)
    (h8 : e.mask.cwHeight = true → np.height ≤ e.height) :
    (confCalls (HandleConfigureRequest borderWidth titleSize reg e).2 = [] ∨
      ∃ wc1 wc2,
        confCalls (HandleConfigureRequest borderWidth titleSize reg e).2 =
          [⟨np.parent, e.mask, wc1⟩, ⟨np.window, e.mask, wc2⟩]) ∧
    ∀ s ∈ statesAfter np.parent np.window s0
        (confCalls (HandleConfigureRequest borderWidth titleSize reg e).2),
      ContentWithin s := by
  have hnp1 := applyRequestFields_eq np e
  by_cases hch : ((e.mask.cwWidth && e.width != np.width) ||
      (e.mask.cwHeight && e.height != np.height) ||
      (e.mask.cwX && e.x != np.x) ||
      (e.mask.cwY && e.y != np.y)) = false
  · have hcalls :
        confCalls (HandleConfigureRequest borderWidth titleSize reg e).2 =
          [] := by
      simp only [HandleConfigureRequest, h1, if_pos h2, hnp1, hch]
      cases np.controller <;> simp [confCalls]
    rw [hcalls]
    exact ⟨Or.inl rfl, by simp [statesAfter]⟩
  · have hch' : ((e.mask.cwWidth && e.width != np.width) ||
        (e.mask.cwHeight && e.height != np.height) ||
        (e.mask.cwX && e.x != np.x) ||
        (e.mask.cwY && e.y != np.y)) = true := by
      revert hch
      cases ((e.mask.cwWidth && e.width != np.width) ||
        (e.mask.cwHeight && e.height != np.height) ||
        (e.mask.cwX && e.x != np.x) ||
        (e.mask.cwY && e.y != np.y)) <;> simp
    set nw : Nat :=
      if e.mask.cwWidth && e.width != np.width then e.width else np.width
      with hnw
    set nh : Nat :=
      if e.mask.cwHeight && e.height != np.height then e.height else np.height
      with hnh
    set ins := borderInsets borderWidth titleSize np.state.border with hins
    have hwge : np.width ≤ nw := by
      rw [hnw]
      split
      · rename_i hsp
        exact h7 (Bool.and_elim_left hsp)
      · exact Nat.le_refl _
    have hhge : np.height ≤ nh := by
      rw [hnh]
      split
      · rename_i hsp
        exact h8 (Bool.and_elim_left hsp)
      · exact Nat.le_refl _
    have hcalls :
        confCalls (HandleConfigureRequest borderWidth titleSize reg e).2 =
          [⟨np.parent, e.mask,
              ⟨if e.mask.cwX && e.x != np.x then e.x else np.x,
                if e.mask.cwY && e.y != np.y then e.y else np.y,
                nw + ins.2.2.1 + ins.2.2.2, nh + ins.1 + ins.2.1,
                0, np.parent, stackAbove⟩⟩,
            ⟨np.window, e.mask,
              ⟨ins.2.2.2, ins.1, nw, nh, 0, np.parent, stackAbove⟩⟩] := by
      simp only [HandleConfigureRequest, h1, if_pos h2, hnp1, hch',
        Bool.true_eq_false, if_neg (Bool.noConfusion : ¬(true = false))]
      cases np.controller <;> simp [confCalls, hnw, hnh, hins]
    rw [hcalls]
    refine ⟨Or.inr ⟨_, _, rfl⟩, ?_⟩
    have hne : np.window ≠ np.parent := fun hcontra => h3 hcontra.symm
    have h61 : s0.content.width ≤ s0.frame.width := h6.1
    have h62 : s0.content.height ≤ s0.frame.height := h6.2
    intro s hs
    simp only [statesAfter, List.mem_cons, List.not_mem_nil, or_false] at hs
    rw [applyCall_to_frame np.parent np.window s0 _ rfl] at hs
    rw [applyCall_to_content np.parent np.window _ _ hne rfl] at hs
    rcases hs with rfl | rfl
    · unfold ContentWithin
      constructor
      · rw [applyChanges_width]
        cases hcw : e.mask.cwWidth <;> simp only [hcw, if_true, if_false,
          Bool.false_eq_true, reduceIte] <;> omega
      · rw [applyChanges_height]
        cases hcw : e.mask.cwHeight <;> simp only [hcw, if_true, if_false,
          Bool.false_eq_true, reduceIte] <;> omega
    · unfold ContentWithin
      constructor
      · rw [applyChanges_width, applyChanges_width]
        cases hcw : e.mask.cwWidth <;> simp only [hcw, if_true, if_false,
          Bool.false_eq_true, reduceIte] <;> omega
      · rw [applyChanges_height, applyChanges_height]
        cases hcw : e.mask.cwHeight <;> simp only [hcw, if_true, if_false,
          Bool.false_eq_true, reduceIte] <;> omega

/-- A configure request enlarging the width of window 1 to 150. -/
def growRequest : XConfigureRequestEvent :=
  ⟨1, ⟨false, false, true, false, false, false, false⟩, 0, 0, 150, 100, 0, 0,
    0⟩

/-- Claim C2, witness for the amended theorem: an enlarging request on the
concrete client resizes frame then content and keeps the content inside the
frame at every step. -/
theorem C2_amended_witness :
    (confCalls (HandleConfigureRequest 4 20 [shrinkClient] growRequest).2 =
        [] ∨
      ∃ wc1 wc2,
        confCalls (HandleConfigureRequest 4 20 [shrinkClient] growRequest).2 =
          [⟨shrinkClient.parent, growRequest.mask, wc1⟩,
            ⟨shrinkClient.window, growRequest.mask, wc2⟩]) ∧
    ∀ s ∈ statesAfter shrinkClient.parent shrinkClient.window shrinkStart
        (confCalls (HandleConfigureRequest 4 20 [shrinkClient] growRequest).2),
      ContentWithin s :=
  C2_amended 4 20 [shrinkClient] growRequest shrinkClient shrinkStart
    (by decide) (by decide) (by decide) (by decide) (by decide) (by decide)
    (by decide) (by decide)

/-- Clearing of the STAT_MAPPED flag (`np->state.status &= ~STAT_MAPPED`). -/
def clearMappedFlag (np : ClientNode) : ClientNode :=
  { np with state := { np.state with
      status := { np.state.status with mapped := false } } }

/-- `HandleUnmapNotify` (src/event.c lines 792-811): only when the resolved
client's content id equals the event window does the handler notify the
controller with the ending argument and, if the client is mapped, clear the
mapped flag and unmap the decoration window. -/
def HandleUnmapNotify (reg : List ClientNode) (w : Nat) :
    List ClientNode × List WMAction :=
  match FindClientByWindow reg w with
  | some np =>
    if np.window = w then
      let ctl : List WMAction :=
        if np.controller then [WMAction.controllerCall np.window 1] else []
      if np.state.status.mapped then
        (updateClient reg np.window (clearMappedFlag np),
          ctl ++ [WMAction.clearMapped np.window,
            WMAction.unmapWindow np.parent])
      else
        (reg, ctl)
    else
      (reg, [])
  | none => (reg, [])

/-- `HandleDestroyNotify` (src/event.c lines 815-833): only when the resolved
client's content id equals the event window does the handler notify the
controller with the ending argument, remove the client, and report the event
handled (1); otherwise it reports it unhandled (0). -/
def HandleDestroyNotify (reg : List ClientNode) (w : Nat) :
    List ClientNode × List WMAction × Nat :=
  match FindClientByWindow reg w with
  | some np =>
    if np.window = w then
      let ctl : List WMAction :=
        if np.controller then [WMAction.controllerCall np.window 1] else []
      (RemoveClient reg np, ctl ++ [WMAction.removeClient np.window], 1)
    else
      (reg, [], 0)
  | none => (reg, [], 0)

/-- Claim C3: for a client with a registered controller, a destroy
notification on its content window invokes the controller exactly once with
the ending argument (1) before the registry removal; an unmap notification
invokes it with the ending argument before the mapped flag is cleared; and
in a destroy-then-late-unmap sequence the late unmap is a complete no-op, so
the controller fires exactly once in total and the removed client is gone
from the registry. -/
theorem C3_destroy_then_unmap (reg : List ClientNode) (w : Nat)
    (np : ClientNode)
    (h1 : FindClientByWindow reg w = some np)
    (h2 : np.window = w)
    (h3 : np.controller = true) :
    (HandleDestroyNotify reg w).2.1 =
      [WMAction.controllerCall w 1, WMAction.removeClient w] ∧
    (HandleDestroyNotify reg w).2.2 = 1 ∧
    (HandleUnmapNotify reg w).2 =
      (if np.state.status.mapped then
        [WMAction.controllerCall w 1, WMAction.clearMapped w,
          WMAction.unmapWindow np.parent]
      else
        [WMAction.controllerCall w 1]) ∧
    HandleUnmapNotify (HandleDestroyNotify reg w).1 w =
      ((HandleDestroyNotify reg w).1, []) ∧
    np ∉ (HandleDestroyNotify reg w).1 := by
  have hdest : HandleDestroyNotify reg w =
      (RemoveClient reg np,
        [WMAction.controllerCall np.window 1, WMAction.removeClient np.window],
        1) := by
    simp [HandleDestroyNotify, h1, h2, h3]
  refine ⟨by rw [hdest, h2], by rw [hdest], ?_, ?_, ?_⟩
  · cases hm : np.state.status.mapped <;>
      simp [HandleUnmapNotify, h1, h2, h3, hm]
  · rw [hdest]
    cases hfind : FindClientByWindow (RemoveClient reg np) w with
    | none => simp [HandleUnmapNotify, hfind]
    | some np' =>
      have hmem : np' ∈ RemoveClient reg np :=
        List.mem_of_find?_eq_some hfind
      have hneq : np'.window ≠ w := by
        have hfilter := (List.mem_filter.mp hmem).2
        intro hw
        rw [hw, ← h2] at hfilter
        simp at hfilter
      simp [HandleUnmapNotify, hfind, hneq]
  · rw [hdest]
    intro hmem
    have hfilter := (List.mem_filter.mp hmem).2
    simp at hfilter

/-- A mapped managed client with a registered controller, content id 3 and
decoration id 4. -/
def controlledClient : ClientNode :=
  ⟨3, 4, 0, 0, 80, 60,
    ⟨⟨true, false, false, false, false, false, false, false, false, false,
        false⟩,
      ⟨true, true⟩, 2, 2, 0, 0⟩, 0, true⟩

/-- Claim C3, witness: the destroy-then-late-unmap sequence on the concrete
controlled client fires the ending controller call exactly once, before the
removal, and the late unmap is a no-op. -/
theorem C3_witness :
    (HandleDestroyNotify [controlledClient] 3).2.1 =
      [WMAction.controllerCall 3 1, WMAction.removeClient 3] ∧
    (HandleDestroyNotify [controlledClient] 3).2.2 = 1 ∧
    (HandleUnmapNotify [controlledClient] 3).2 =
      (if controlledClient.state.status.mapped then
        [WMAction.controllerCall 3 1, WMAction.clearMapped 3,
          WMAction.unmapWindow controlledClient.parent]
      else
        [WMAction.controllerCall 3 1]) ∧
    HandleUnmapNotify (HandleDestroyNotify [controlledClient] 3).1 3 =
      ((HandleDestroyNotify [controlledClient] 3).1, []) ∧
    controlledClient ∉ (HandleDestroyNotify [controlledClient] 3).1 :=
  C3_destroy_then_unmap [controlledClient] 3 controlledClient (by decide)
    (by decide) (by decide)

/-- Claim C9: an unmap or destroy event whose window id resolves to a managed
client but differs from that client's content window id (for example the
decoration window id) changes nothing: registry, client state and controller
are untouched, no action is emitted, and the destroy handler reports the
event unhandled (0). -/
theorem C9_other_id_no_effect (reg : List ClientNode) (w : Nat)
    (np : ClientNode)
    (h1 : FindClientByWindow reg w = some np)
    (h2 : np.window ≠ w) :
    HandleUnmapNotify reg w = (reg, []) ∧
    HandleDestroyNotify reg w = (reg, [], 0) := by
  constructor <;> simp [HandleUnmapNotify, HandleDestroyNotify, h1, h2]

/-- Claim C9, witness: an unmap or destroy aimed at decoration id 4, which
resolves to the client whose content id is 3, is a complete no-op and the
destroy is reported unhandled. -/
theorem C9_witness :
    HandleUnmapNotify [controlledClient] 4 = ([controlledClient], []) ∧
    HandleDestroyNotify [controlledClient] 4 = ([controlledClient], [], 0) :=
  C9_other_id_no_effect [controlledClient] 4 controlledClient (by decide)
    (by decide)

/-- The fields of an `XExposeEvent` that HandleExpose reads. -/
structure XExposeEvent where
  window : Nat
  count : Nat
deriving DecidableEq, Repr

/-- `HandleExpose` (src/event.c lines 444-465): a non-final expose
(count not 0) is swallowed as handled; a final expose on the decoration
window redraws the border; one on the content window of a dialog client is
reported unhandled (0) so the dialog collaborator gets it; anything else on a
managed client is handled; an unmanaged window is unhandled. -/
def HandleExpose (reg : List ClientNode) (e : XExposeEvent) :
    Nat × List WMAction :=
  if e.count ≠ 0 then
    (1, [])
  else
    match FindClientByWindow reg e.window with
    | some np =>
      if e.window = np.parent then
        (1, [WMAction.drawBorder np.window])
      else if e.window = np.window ∧ np.state.status.wmDialog = true then
        (0, [])
      else
        (1, [])
    | none => (0, [])

/-- The property atoms HandlePropertyNotify distinguishes (src/event.c lines
477-502): the named XA_* and atoms[] entries, with one constructor standing
for every other atom. -/
inductive PropertyAtom where
  | wmName
  | wmNormalHints
  | wmHints
  | wmIconName
  | wmClientMachine
  | wmColormapWindows
  | netWmIcon
  | netWmName
  | jwmRestartAtom
  | jwmExitAtom
  | otherAtom
deriving DecidableEq, Repr

/-- `HandlePropertyNotify` (src/event.c lines 469-523): on a managed client
the relevant property is re-read, a visible change redraws the border and
refreshes taskbar and pager, and the handler then reports the event
unhandled (0) exactly when the client is a dialog; on the root window the
jwm restart/exit atoms act; everything else is reported handled (1). -/
def HandlePropertyNotify (reg : List ClientNode) (w : Nat)
    (atom : PropertyAtom) (rootWindow : Nat) : Nat × List WMAction :=
  match FindClientByWindow reg w with
  | some np =>
    let pr : List WMAction × Bool :=
      match atom with
      | PropertyAtom.wmName => ([WMAction.readWMName np.window], true)
      | PropertyAtom.wmNormalHints =>
        ([WMAction.readWMNormalHints np.window], true)
      | PropertyAtom.wmHints => ([], false)
      | PropertyAtom.wmIconName => ([], false)
      | PropertyAtom.wmClientMachine => ([], false)
      | PropertyAtom.wmColormapWindows =>
        ([WMAction.readWMColormaps np.window,
          WMAction.updateColormap np.window], false)
      | PropertyAtom.netWmIcon => ([WMAction.loadIcon np.window], true)
      | PropertyAtom.netWmName => ([WMAction.readWMName np.window], true)
      | PropertyAtom.jwmRestartAtom => ([], false)
      | PropertyAtom.jwmExitAtom => ([], false)
      | PropertyAtom.otherAtom => ([], false)
    let acts := pr.1 ++
      (if pr.2 then
        [WMAction.drawBorder np.window, WMAction.updateTaskBar,
          WMAction.updatePager]
      else
        [])
    if np.state.status.wmDialog then (0, acts) else (1, acts)
  | none =>
    if w = rootWindow then
      match atom with
      | PropertyAtom.jwmRestartAtom => (1, [WMAction.restart])
      | PropertyAtom.jwmExitAtom => (1, [WMAction.exitWM])
      | _ => (1, [])
    else
      (1, [])

/-- A managed dialog client: STAT_WMDIALOG set, content id 1, decoration
id 2. -/
def dialogClient : ClientNode :=
  ⟨1, 2, 0, 0, 80, 60,
    ⟨⟨true, false, false, false, false, false, false, false, false, false,
        true⟩,
      ⟨false, false⟩, 2, 2, 0, 0⟩, 0, false⟩

/-- Claim C10, counterexample: a non-final expose (count 1) on the content
window of a managed dialog client is reported handled (1), not unhandled (0)
as the claim asserts for every expose event on a dialog client. -/
theorem C10_counterexample :
    dialogClient.state.status.wmDialog = true ∧
    HandleExpose [dialogClient] ⟨1, 1⟩ = (1, []) := by
  decide

/-- Claim C10, amended: a final expose (count 0) on the content window of a
managed dialog client, and any property notify resolving to a dialog client,
are reported unhandled (0) so the dialog collaborator gets first refusal —
with property changes still processed first (name re-read, border redraw,
taskbar and pager refresh) — while a non-final expose is handled regardless;
for a non-dialog managed client both handlers report the event handled (1). -/
theorem C10_amended (reg : List ClientNode) (w : Nat) (np : ClientNode)
    (a : PropertyAtom) (rootWindow : Nat)
    (h1 : FindClientByWindow reg w = some np) :
    (np.state.status.wmDialog = true → w = np.window → w ≠ np.parent →
      (HandleExpose reg ⟨w, 0⟩).1 = 0 ∧
      (HandlePropertyNotify reg w a rootWindow).1 = 0 ∧
      (HandlePropertyNotify reg w PropertyAtom.wmName rootWindow).2 =
        [WMAction.readWMName np.window, WMAction.drawBorder np.window,
          WMAction.updateTaskBar, WMAction.updatePager]) ∧
    (np.state.status.wmDialog = false →
      (∀ cnt, (HandleExpose reg ⟨w, cnt⟩).1 = 1) ∧
      (HandlePropertyNotify reg w a rootWindow).1 = 1) := by
  constructor
  · intro hd hw hp
    refine ⟨?_, ?_, ?_⟩
    · subst hw
      simp [HandleExpose, h1, hp, hd]
    · simp [HandlePropertyNotify, h1, hd]
    · simp [HandlePropertyNotify, h1, hd]
  · intro hnd
    constructor
    · intro cnt
      cases cnt with
      | zero =>
        by_cases hp : w = np.parent
        · subst hp
          simp [HandleExpose, h1]
        · simp [HandleExpose, h1, hp, hnd]
      | succ k => simp [HandleExpose]
    · simp [HandlePropertyNotify, h1, hnd]

/-- Claim C10, witness for the amended theorem: on the concrete dialog
client, a final expose and property notifies on the content window come back
unhandled (0), with the name-change processing still performed. -/
theorem C10_amended_witness :
    (HandleExpose [dialogClient] ⟨1, 0⟩).1 = 0 ∧
    (HandlePropertyNotify [dialogClient] 1 PropertyAtom.otherAtom 99).1 = 0 ∧
    (HandlePropertyNotify [dialogClient] 1 PropertyAtom.wmName 99).2 =
      [WMAction.readWMName 1, WMAction.drawBorder 1, WMAction.updateTaskBar,
        WMAction.updatePager] :=
  (C10_amended [dialogClient] 1 dialogClient PropertyAtom.otherAtom 99
    (by decide)).1 (by decide) (by decide) (by decide)

/-- The fields of an `XColormapEvent` that HandleColormapChange reads;
`isNew` is the C field `new` (nonzero when a new colormap was installed). -/
structure XColormapEvent where
  window : Nat
  colormap : Nat
  isNew : Bool
deriving DecidableEq, Repr

/-- `HandleColormapChange` (src/event.c lines 739-749): only an event flagged
as new, on a window resolving to a managed client, stores the new colormap id
and triggers the colormap install refresh. -/
def HandleColormapChange (reg : List ClientNode) (e : XColormapEvent) :
    List ClientNode × List WMAction :=
  if e.isNew = true then
    match FindClientByWindow reg e.window with
    | some np =>
      (updateClient reg np.window { np with cmap := e.colormap },
        [WMAction.updateColormap np.window])
    | none => (reg, [])
  else
    (reg, [])

/-- Claim C7: the tracked colormap id is updated and a colormap install
refresh is triggered exactly when the event is flagged new and its window
resolves to a managed client; an event not flagged new (or one resolving to
no client) leaves the registry unchanged and triggers nothing. -/
theorem C7_colormap (reg : List ClientNode) (e : XColormapEvent) :
    (e.isNew = false → HandleColormapChange reg e = (reg, [])) ∧
    (e.isNew = true → FindClientByWindow reg e.window = none →
      HandleColormapChange reg e = (reg, [])) ∧
    (∀ np, e.isNew = true → FindClientByWindow reg e.window = some np →
      HandleColormapChange reg e =
        (updateClient reg np.window { np with cmap := e.colormap },
          [WMAction.updateColormap np.window])) := by
  refine ⟨fun hn => ?_, fun hn hf => ?_, fun np hn hf => ?_⟩
  · simp [HandleColormapChange, hn]
  · simp [HandleColormapChange, hn, hf]
  · simp [HandleColormapChange, hn, hf]

/-- Claim C7, witness: a new-flagged colormap event on the concrete client
stores colormap 5 and triggers the refresh; together with the not-new
no-op on the same client. -/
theorem C7_witness :
    HandleColormapChange [controlledClient] ⟨3, 5, false⟩ =
      ([controlledClient], []) ∧
    HandleColormapChange [controlledClient] ⟨3, 5, true⟩ =
      (updateClient [controlledClient] 3 { controlledClient with cmap := 5 },
        [WMAction.updateColormap 3]) :=
  ⟨(C7_colormap [controlledClient] ⟨3, 5, false⟩).1 (by decide),
    (C7_colormap [controlledClient] ⟨3, 5, true⟩).2.2 controlledClient
      (by decide) (by decide)⟩

/-- `SetClientSticky` as the spec describes it.  Modelled from the spec
(section 4.3, client.c is not among the scoped sources): sets or clears the
sticky flag of the client. -/
def SetClientSticky (np : ClientNode) (value : Bool) : ClientNode :=
  { np with state := { np.state with
      status := { np.state.status with sticky := value } } }

/-- `SetClientDesktop` as the spec describes it.  Modelled from the spec
(section 4.3, client.c is not among the scoped sources): assigns the desktop
index to the client. -/
def SetClientDesktop (np : ClientNode) (d : Nat) : ClientNode :=
  { np with state := { np.state with desktop := d } }

/-- The ATOM_NET_WM_DESKTOP branch of `HandleClientMessage` (src/event.c
lines 604-618).  `event->data.l[0] == ~0UL` compares the signed long against
all-ones, which holds exactly for -1, the sticky sentinel; a non-sentinel
value first notifies the controller, and only an index in
[0, desktopCount) clears the sticky bit and assigns the desktop
(`l[0] < desktopCount` promotes desktopCount to signed long on LP64). -/
def HandleClientMessageDesktop (desktopCount : Nat) (reg : List ClientNode)
    (w : Nat) (l0 : Int) : List ClientNode × List WMAction :=
  match FindClientByWindow reg w with
  | some np =>
    if l0 = -1 then
      (updateClient reg np.window (SetClientSticky np true),
        [WMAction.setSticky np.window true])
    else
      let ctl : List WMAction :=
        if np.controller then [WMAction.controllerCall np.window 0] else []
      if 0 ≤ l0 ∧ l0 < (desktopCount : Int) then
        let np1 : ClientNode := { np with state := { np.state with
          status := { np.state.status with sticky := false } } }
        (updateClient reg np.window (SetClientDesktop np1 l0.toNat),
          ctl ++ [WMAction.clearStickyFlag np.window,
            WMAction.setDesktop np.window l0.toNat])
      else
        (reg, ctl)
  | none => (reg, [])

/-- Claim C6: a desktop-assignment client message with a non-sentinel index
on a managed client is accepted exactly when the index lies in
[0, desktopCount): an in-range index clears the sticky flag and then sets
the desktop (in that order), while an out-of-range index — desktopCount
itself, anything larger, or any negative index — leaves the registry, and so
the client's desktop and sticky flag, unchanged. -/
theorem C6_desktop_assignment (desktopCount : Nat) (reg : List ClientNode)
    (w : Nat) (l0 : Int) (np : ClientNode)
    (h1 : FindClientByWindow reg w = some np)
    (h2 : l0 ≠ -1) :
    (0 ≤ l0 ∧ l0 < (desktopCount : Int) →
      HandleClientMessageDesktop desktopCount reg w l0 =
        (updateClient reg np.window
          (SetClientDesktop
            { np with state := { np.state with
                status := { np.state.status with sticky := false } } }
            l0.toNat),
          (if np.controller then [WMAction.controllerCall np.window 0]
            else []) ++
            [WMAction.clearStickyFlag np.window,
              WMAction.setDesktop np.window l0.toNat]) ∧
      (SetClientDesktop
          { np with state := { np.state with
              status := { np.state.status with sticky := false } } }
          l0.toNat).state.status.sticky = false ∧
      (SetClientDesktop
          { np with state := { np.state with
              status := { np.state.status with sticky := false } } }
          l0.toNat).state.desktop = l0.toNat) ∧
    (¬(0 ≤ l0 ∧ l0 < (desktopCount : Int)) →
      HandleClientMessageDesktop desktopCount reg w l0 =
        (reg,
          if np.controller then [WMAction.controllerCall np.window 0]
          else [])) := by
  constructor
  · intro hr
    refine ⟨?_, ?_, ?_⟩
    · simp [HandleClientMessageDesktop, h1, h2, hr]
    · simp [SetClientDesktop]
    · simp [SetClientDesktop]
  · intro hr
    simp [HandleClientMessageDesktop, h1, h2, hr]

/-- Claim C6, witness: with 4 desktops, the rejected assignment to index 4
(one past the last valid index) leaves the registry unchanged, and the
accepted assignment to index 2 clears sticky and sets the desktop. -/
theorem C6_witness :
    HandleClientMessageDesktop 4 [controlledClient] 3 4 =
      ([controlledClient], [WMAction.controllerCall 3 0]) ∧
    HandleClientMessageDesktop 4 [controlledClient] 3 2 =
      (updateClient [controlledClient] 3
        (SetClientDesktop
          { controlledClient with state := { controlledClient.state with
              status := { controlledClient.state.status with
                sticky := false } } }
          2),
        [WMAction.controllerCall 3 0, WMAction.clearStickyFlag 3,
          WMAction.setDesktop 3 2]) :=
  ⟨(C6_desktop_assignment 4 [controlledClient] 3 4 controlledClient
      (by decide) (by decide)).2 (by decide),
    ((C6_desktop_assignment 4 [controlledClient] 3 2 controlledClient
      (by decide) (by decide)).1 (by decide)).1⟩

/-- Modelled from the spec (section 4.4; border.h is not among the scoped
sources): the base class of a border action zone — the low nibble that
`action & 0x0F` extracts in DispatchBorderButtonEvent. -/
inductive BorderClass where
  | zoneNone
  | resize
  | move
  | close
  | maximize
  | minimize
deriving DecidableEq, Repr

/-- Modelled from the spec (section 4.4): an action zone is its base class
together with the resize direction flags carried in the high bits. -/
structure BorderAction where
  cls : BorderClass
  north : Bool
  south : Bool
  east : Bool
  west : Bool
deriving DecidableEq, Repr

/-- The persistent double-click detector state of DispatchBorderButtonEvent
(the function-static variables of src/event.c lines 838-840). -/
structure DoubleClickState where
  lastClickTime : Nat
  lastX : Int
  lastY : Int
  doubleClickActive : Bool
deriving DecidableEq, Repr

/-- The fields of an `XButtonEvent` that DispatchBorderButtonEvent reads:
press versus release, pointer position relative to the decoration window,
and the server timestamp. -/
structure XButtonEvent where
  isPress : Bool
  x : Int
  y : Int
  time : Nat
deriving DecidableEq, Repr

/-- `DispatchBorderButtonEvent` (src/event.c lines 837-898), for button 1.
The resolved zone comes from the external `GetBorderActionType`, passed in
as `resolveAction`; `moveCompleted` is the return value of the external
`MoveClient` interactive loop (true when the client actually moved rather
than the press being a pure click).  A client without BORDER_OUTLINE is
dismissed before any zone is resolved.  `abs(event->time - lastClickTime)`
is embedded as the absolute difference of the timestamps as integers. -/
def DispatchBorderButtonEvent (doubleClickSpeed doubleClickDelta : Nat)
    (resolveAction : Int → Int → BorderAction) (moveCompleted : Bool)
    (np : ClientNode) (e : XButtonEvent) (s : DoubleClickState) :
    DoubleClickState × List WMAction :=
  if np.state.border.outline = false then
    (s, [])
  else
    let action := resolveAction e.x e.y
    match action.cls with
    | BorderClass.resize =>
      if e.isPress then (s, [WMAction.resizeClient np.window]) else (s, [])
    | BorderClass.move =>
      if e.isPress then
        if s.doubleClickActive = true ∧
            ((e.time : Int) - (s.lastClickTime : Int)).natAbs ≤
              doubleClickSpeed ∧
            (e.x - s.lastX).natAbs ≤ doubleClickDelta ∧
            (e.y - s.lastY).natAbs ≤ doubleClickDelta then
          ({ s with doubleClickActive := false },
            [if np.state.status.shaded then WMAction.unshadeClient np.window
              else WMAction.shadeClient np.window])
        else
          if moveCompleted then
            ({ s with doubleClickActive := false },
              [WMAction.moveClient np.window])
          else
            (⟨e.time, e.x, e.y, true⟩, [WMAction.moveClient np.window])
      else
        (s, [])
    | BorderClass.close =>
      if e.isPress = false then (s, [WMAction.deleteClient np.window])
      else (s, [])
    | BorderClass.maximize =>
      if e.isPress = false then (s, [WMAction.maximizeClient np.window])
      else (s, [])
    | BorderClass.minimize =>
      if e.isPress = false then (s, [WMAction.minimizeClient np.window])
      else (s, [])
    | BorderClass.zoneNone => (s, [])

/-- The double-click condition of src/event.c lines 857-860: the detector is
armed and the press is within the configured time and per-axis distance
deltas of the previous press. -/
def IsDoubleClick (doubleClickSpeed doubleClickDelta : Nat)
    (s : DoubleClickState) (e : XButtonEvent) : Prop :=
  s.doubleClickActive = true ∧
  ((e.time : Int) - (s.lastClickTime : Int)).natAbs ≤ doubleClickSpeed ∧
  (e.x - s.lastX).natAbs ≤ doubleClickDelta ∧
  (e.y - s.lastY).natAbs ≤ doubleClickDelta

instance (sp d : Nat) (s : DoubleClickState) (e : XButtonEvent) :
    Decidable (IsDoubleClick sp d s e) := by
  unfold IsDoubleClick
  infer_instance

/-- Claim C4: for a button-1 press in the move/titlebar zone of an outlined
client, the press toggles shade exactly when the detector is armed and the
press lies within the configured time and per-axis distance deltas of the
previous press (and doing so disarms the detector); otherwise the press
starts an interactive move — exactly one of the two per press — after which
a completed move disarms the detector while a pure click arms it and records
the press time and position. -/
theorem C4_double_click (sp d : Nat)
    (resolveAction : Int → Int → BorderAction) (mv : Bool) (np : ClientNode)
    (e : XButtonEvent) (s : DoubleClickState)
    (h1 : np.state.border.outline = true)
    (h2 : (resolveAction e.x e.y).cls = BorderClass.move)
    (h3 : e.isPress = true) :
    (IsDoubleClick sp d s e →
      DispatchBorderButtonEvent sp d resolveAction mv np e s =
        ({ s with doubleClickActive := false },
          [if np.state.status.shaded then WMAction.unshadeClient np.window
            else WMAction.shadeClient np.window])) ∧
    (¬ IsDoubleClick sp d s e →
      (DispatchBorderButtonEvent sp d resolveAction mv np e s).2 =
        [WMAction.moveClient np.window] ∧
      (mv = true →
        (DispatchBorderButtonEvent sp d resolveAction mv np e s).1 =
          { s with doubleClickActive := false }) ∧
      (mv = false →
        (DispatchBorderButtonEvent sp d resolveAction mv np e s).1 =
          ⟨e.time, e.x, e.y, true⟩)) ∧
    ((DispatchBorderButtonEvent sp d resolveAction mv np e s).2 =
        [if np.state.status.shaded then WMAction.unshadeClient np.window
          else WMAction.shadeClient np.window] ↔
      IsDoubleClick sp d s e) := by
  have hred : DispatchBorderButtonEvent sp d resolveAction mv np e s =
      if IsDoubleClick sp d s e then
        ({ s with doubleClickActive := false },
          [if np.state.status.shaded then WMAction.unshadeClient np.window
            else WMAction.shadeClient np.window])
      else if mv then
        ({ s with doubleClickActive := false },
          [WMAction.moveClient np.window])
      else
        (⟨e.time, e.x, e.y, true⟩, [WMAction.moveClient np.window]) := by
    unfold DispatchBorderButtonEvent IsDoubleClick
    simp [h1, h2, h3]
  by_cases hdbl : IsDoubleClick sp d s e
  · rw [hred, if_pos hdbl]
    exact ⟨fun _ => rfl, fun hc => absurd hdbl hc,
      ⟨fun _ => hdbl, fun _ => rfl⟩⟩
  · rw [hred, if_neg hdbl]
    refine ⟨fun hc => absurd hc hdbl, fun _ => ?_, ?_⟩
    · cases hmv : mv
      · exact ⟨rfl, fun h => Bool.noConfusion h, fun _ => rfl⟩
      · exact ⟨rfl, fun _ => rfl, fun h => Bool.noConfusion h⟩
    · constructor
      · intro heq
        exfalso
        cases hmv : mv <;> rw [hmv] at heq <;>
          cases hsh : np.state.status.shaded <;> simp [hsh] at heq
      · intro hd2
        exact absurd hd2 hdbl

/-- A zone resolver that classifies every frame position as the
move/titlebar zone. -/
def moveZoneResolver : Int → Int → BorderAction :=
  fun _ _ => ⟨BorderClass.move, false, false, false, false⟩

/-- An outlined, unshaded client with content id 7. -/
def shadeableClient : ClientNode :=
  ⟨7, 8, 0, 0, 100, 100,
    ⟨⟨true, false, false, false, false, false, false, false, false, false,
        false⟩,
      ⟨true, true⟩, 2, 2, 0, 0⟩, 0, false⟩

/-- Claim C4, witness: with doubleClickSpeed 400 and doubleClickDelta 2, a
second press at (12, 11) and time 300, after a first press recorded at
(10, 10) and time 100 armed the detector, toggles shade and disarms. -/
theorem C4_witness :
    DispatchBorderButtonEvent 400 2 moveZoneResolver false shadeableClient
        ⟨true, 12, 11, 300⟩ ⟨100, 10, 10, true⟩ =
      (⟨100, 10, 10, false⟩,
        [if shadeableClient.state.status.shaded then
            WMAction.unshadeClient shadeableClient.window
          else WMAction.shadeClient shadeableClient.window]) :=
  (C4_double_click 400 2 moveZoneResolver false shadeableClient
      ⟨true, 12, 11, 300⟩ ⟨100, 10, 10, true⟩ rfl rfl rfl).1
    (by decide)

/-- Claim C5: for a button-1 event on a client's decoration window, a client
without an outline dispatches nothing at all; otherwise a press in a resize
zone starts an interactive resize (release does nothing), a press in the
move/titlebar zone either toggles shade or starts a move (one of the two),
the Close/Maximize/Minimize transitions fire only on release in their zones
with presses there having no effect, and the none zone dispatches nothing. -/
theorem C5_zone_dispatch (sp d : Nat)
    (resolveAction : Int → Int → BorderAction) (mv : Bool) (np : ClientNode)
    (e : XButtonEvent) (s : DoubleClickState) :
    (np.state.border.outline = false →
      DispatchBorderButtonEvent sp d resolveAction mv np e s = (s, [])) ∧
    (np.state.border.outline = true →
      ((resolveAction e.x e.y).cls = BorderClass.resize →
        (e.isPress = true →
          DispatchBorderButtonEvent sp d resolveAction mv np e s =
            (s, [WMAction.resizeClient np.window])) ∧
        (e.isPress = false →
          DispatchBorderButtonEvent sp d resolveAction mv np e s =
            (s, []))) ∧
      ((resolveAction e.x e.y).cls = BorderClass.move → e.isPress = true →
        (DispatchBorderButtonEvent sp d resolveAction mv np e s).2 =
          [if np.state.status.shaded then WMAction.unshadeClient np.window
            else WMAction.shadeClient np.window] ∨
        (DispatchBorderButtonEvent sp d resolveAction mv np e s).2 =
          [WMAction.moveClient np.window]) ∧
      ((resolveAction e.x e.y).cls = BorderClass.close →
        (e.isPress = false →
          DispatchBorderButtonEvent sp d resolveAction mv np e s =
            (s, [WMAction.deleteClient np.window])) ∧
        (e.isPress = true →
          DispatchBorderButtonEvent sp d resolveAction mv np e s =
            (s, []))) ∧
      ((resolveAction e.x e.y).cls = BorderClass.maximize →
        (e.isPress = false →
          DispatchBorderButtonEvent sp d resolveAction mv np e s =
            (s, [WMAction.maximizeClient np.window])) ∧
        (e.isPress = true →
          DispatchBorderButtonEvent sp d resolveAction mv np e s =
            (s, []))) ∧
      ((resolveAction e.x e.y).cls = BorderClass.minimize →
        (e.isPress = false →
          DispatchBorderButtonEvent sp d resolveAction mv np e s =
            (s, [WMAction.minimizeClient np.window])) ∧
        (e.isPress = true →
          DispatchBorderButtonEvent sp d resolveAction mv np e s =
            (s, []))) ∧
      ((resolveAction e.x e.y).cls = BorderClass.zoneNone →
        DispatchBorderButtonEvent sp d resolveAction mv np e s = (s, []))) := by
  constructor
  · intro h0
    simp [DispatchBorderButtonEvent, h0]
  · intro h1
    refine ⟨fun hc => ⟨fun hp => ?_, fun hp => ?_⟩,
      fun hc hp => ?_,
      fun hc => ⟨fun hp => ?_, fun hp => ?_⟩,
      fun hc => ⟨fun hp => ?_, fun hp => ?_⟩,
      fun hc => ⟨fun hp => ?_, fun hp => ?_⟩,
      fun hc => ?_⟩
    · simp [DispatchBorderButtonEvent, h1, hc, hp]
    · simp [DispatchBorderButtonEvent, h1, hc, hp]
    · simp only [DispatchBorderButtonEvent, h1, hc, hp]
      simp only [Bool.true_eq_false, if_false, if_true, reduceIte]
      split
      · exact Or.inl rfl
      · split
        · exact Or.inr rfl
        · exact Or.inr rfl
    · simp [DispatchBorderButtonEvent, h1, hc, hp]
    · simp [DispatchBorderButtonEvent, h1, hc, hp]
    · simp [DispatchBorderButtonEvent, h1, hc, hp]
    · simp [DispatchBorderButtonEvent, h1, hc, hp]
    · simp [DispatchBorderButtonEvent, h1, hc, hp]
    · simp [DispatchBorderButtonEvent, h1, hc, hp]
    · simp [DispatchBorderButtonEvent, h1, hc]

/-- Modelled from the spec (section 4.5; key.h is not among the scoped
sources): the logical command codes a key binding resolves to — the low byte
of `KeyType` that HandleKeyPress switches on. -/
inductive KeyCommand where
  | keyExec
  | keyDesktop
  | keyNext
  | keyClose
  | keyShade
  | keyMove
  | keyResize
  | keyMin
  | keyMax
  | keyRoot
  | keyWin
  | keyRestart
  | keyQuit
  | keyNone
deriving DecidableEq, Repr

/-- A resolved key binding: the command code plus the encoded numeric
argument (`key >> 8`, used for desktop selection). -/
structure KeyBinding where
  cmd : KeyCommand
  arg : Nat
deriving DecidableEq, Repr

/-- The two focus models of src/event.c (FOCUS_CLICK and FOCUS_SLOPPY). -/
inductive FocusModel where
  | click
  | sloppy
deriving DecidableEq, Repr

/-- The target-client resolution of HandleKeyPress (src/event.c lines
253-257): under click focus the client under the event's sub-window,
otherwise the active client (`GetActiveClient` is external, passed in as
`active`). -/
def resolveKeyTarget (reg : List ClientNode) (fm : FocusModel)
    (active : Option ClientNode) (subwindow : Nat) : Option ClientNode :=
  match fm with
  | FocusModel.click => FindClientByWindow reg subwindow
  | FocusModel.sloppy => active

/-- `HandleKeyPress` (src/event.c lines 247-325): the switch on the resolved
command, where every client-targeted command is guarded by `if(np)` and so
dispatches nothing without a target. -/
def HandleKeyPress (reg : List ClientNode) (fm : FocusModel)
    (active : Option ClientNode) (subwindow : Nat) (k : KeyBinding) :
    List WMAction :=
  let np := resolveKeyTarget reg fm active subwindow
  match k.cmd with
  | KeyCommand.keyExec => [WMAction.runKeyCommand]
  | KeyCommand.keyDesktop =>
    if k.arg ≠ 0 then [WMAction.changeDesktop (k.arg - 1)]
    else [WMAction.nextDesktop]
  | KeyCommand.keyNext => [WMAction.focusNext]
  | KeyCommand.keyClose =>
    match np with
    | some c => [WMAction.deleteClient c.window]
    | none => []
  | KeyCommand.keyShade =>
    match np with
    | some c =>
      [if c.state.status.shaded then WMAction.unshadeClient c.window
        else WMAction.shadeClient c.window]
    | none => []
  | KeyCommand.keyMove =>
    match np with
    | some c => [WMAction.moveClientKeyboard c.window]
    | none => []
  | KeyCommand.keyResize =>
    match np with
    | some c => [WMAction.resizeClientKeyboard c.window]
    | none => []
  | KeyCommand.keyMin =>
    match np with
    | some c => [WMAction.minimizeClient c.window]
    | none => []
  | KeyCommand.keyMax =>
    match np with
    | some c => [WMAction.maximizeClient c.window]
    | none => []
  | KeyCommand.keyRoot => [WMAction.showRootMenu 0 0]
  | KeyCommand.keyWin =>
    match np with
    | some c => [WMAction.showWindowMenu c.window c.x c.y]
    | none => []
  | KeyCommand.keyRestart => [WMAction.restart]
  | KeyCommand.keyQuit => [WMAction.exitWM]
  | KeyCommand.keyNone => []

/-- The commands of HandleKeyPress that require a target client. -/
def clientTargeted : KeyCommand → Bool
  | KeyCommand.keyClose => true
  | KeyCommand.keyShade => true
  | KeyCommand.keyMove => true
  | KeyCommand.keyResize => true
  | KeyCommand.keyMin => true
  | KeyCommand.keyMax => true
  | KeyCommand.keyWin => true
  | _ => false

/-- Claim C8: a key press whose binding resolves to a client-targeted command
(close, shade-toggle, keyboard move, keyboard resize, minimize, maximize,
window menu) dispatches nothing when no target client resolves — no focused
window under sloppy focus, or no client under the event's sub-window under
click focus. -/
theorem C8_no_target_noop (reg : List ClientNode) (fm : FocusModel)
    (active : Option ClientNode) (subwindow : Nat) (k : KeyBinding)
    (h1 : resolveKeyTarget reg fm active subwindow = none)
    (h2 : clientTargeted k.cmd = true) :
    HandleKeyPress reg fm active subwindow k = [] := by
  cases hk : k.cmd <;>
    simp_all [HandleKeyPress, clientTargeted]

/-- Claim C8, witness: under click focus with an empty registry, a close
command resolves no target and dispatches nothing. -/
theorem C8_witness :
    HandleKeyPress [] FocusModel.click none 0
      ⟨KeyCommand.keyClose, 0⟩ = [] :=
  C8_no_target_noop [] FocusModel.click none 0 ⟨KeyCommand.keyClose, 0⟩
    rfl rfl
